import Mathlib

/-!
A verification development for the analysis/cleaning engine of the
solar-farm-insight repository (the functions of src/notebooks/utils.py that
carry the engine logic).

Modelling conventions, fixed once for the whole file:

* A table (pandas DataFrame with a timestamp index) is a `Table`: a list of
  index timestamps plus an ordered list of named columns.
* A numeric cell is an `Option ℚ`; `none` is the floating-point NaN, which
  pandas uses as the missing-value marker.  All numeric arithmetic is done
  in `ℚ`.
* A column carries its dtype, as in pandas: `Col.numeric` (float dtype),
  `Col.text` (object dtype holding strings), `Col.bools` (bool dtype).
* The sample standard deviation σ = √(sample variance) is irrational in
  general, so the development tracks the square z² = (x − μ)²/variance of a
  z-score instead of z itself.  This determines the flag exactly:
  |z| > t  ⟺  t < 0 ∨ z² > t², and z is NaN exactly when z² is `none`.
  Likewise a Pearson coefficient r = Sxy/√(Sxx·Syy) is tracked as its
  signed square r·|r| = Sxy·|Sxy|/(Sxx·Syy), a strictly monotone encoding:
  r = 1 ⟺ the encoding is 1, and r is NaN exactly when the encoding is
  `none`.
* A raised Python exception is an `Except.error`; pandas operations that
  never raise are total functions.
* pandas assignment `df[col] = s` mutates the frame object in place, so for
  every engine operation the file also records the state of the *caller's*
  table after the call (`…_after`): the input itself for the operations
  that write only into a fresh `copy()`, and the updated frame for
  `clip_columns_to_range`, whose source assigns into its argument.
-/

set_option maxRecDepth 100000

namespace SolarFarm

/-- Equality of `Except` values is decidable when it is for both
components; used to evaluate the fallible engine operations on concrete
inputs. -/
def exceptDecEq {ε α : Type} [DecidableEq ε] [DecidableEq α] :
    (a b : Except ε α) → Decidable (a = b)
  | .error x, .error y =>
      if h : x = y then isTrue (congrArg Except.error h)
      else isFalse (fun q => h (Except.error.inj q))
  | .error _, .ok _ => isFalse (fun q => Except.noConfusion q)
  | .ok _, .error _ => isFalse (fun q => Except.noConfusion q)
  | .ok x, .ok y =>
      if h : x = y then isTrue (congrArg Except.ok h)
      else isFalse (fun q => h (Except.ok.inj q))

instance {ε α : Type} [DecidableEq ε] [DecidableEq α] :
    DecidableEq (Except ε α) :=
  exceptDecEq

/-- A timestamp of the table index; only the calendar fields the engine
reads (year, month for resampling; hour for the nighttime check). -/
structure Timestamp where
  year : Int
  month : Nat
  day : Nat
  hour : Nat
deriving DecidableEq, Repr

/-- A column with its dtype: numeric cells are `Option ℚ` with `none` for
NaN; object columns hold strings; bool columns hold booleans. -/
inductive Col where
  | numeric (cells : List (Option ℚ))
  | text (cells : List String)
  | bools (cells : List Bool)
deriving DecidableEq, Repr

/-- In-memory table: timestamp index plus ordered named columns. -/
structure Table where
  index : List Timestamp
  cols : List (String × Col)
deriving DecidableEq, Repr

/-- First column with the given name, as pandas column lookup. -/
def lookupCol (df : Table) (name : String) : Option Col :=
  (df.cols.find? (fun p => p.1 = name)).map (fun p => p.2)

/-- pandas column assignment `df[name] = c`: overwrite the column in place
if the name exists, otherwise append it at the end. -/
def setCol (df : Table) (name : String) (c : Col) : Table :=
  if df.cols.any (fun p => p.1 = name) then
    { df with cols := df.cols.map (fun p => if p.1 = name then (name, c) else p) }
  else
    { df with cols := df.cols ++ [(name, c)] }

/-- Number of missing (NaN) cells of a column; object and bool columns hold
no NaN in this model. -/
def nullCount : Col → Nat
  | .numeric cells => cells.countP (fun c => c.isNone)
  | .text _ => 0
  | .bools _ => 0

/-- `report_null_columns` (src/notebooks/utils.py lines 15–31): the dict
comprehension keeping, in column order, each column whose null count is
positive, mapped to that count. -/
def report_null_columns (df : Table) : List (String × Nat) :=
  df.cols.filterMap (fun p =>
    if 0 < nullCount p.2 then some (p.1, nullCount p.2) else none)

/-- Total number of missing cells of a table. -/
def totalMissing (df : Table) : Nat :=
  (df.cols.map (fun p => nullCount p.2)).sum

/-- The non-missing values of a numeric column, pandas `skipna` order. -/
def presentVals (cells : List (Option ℚ)) : List ℚ :=
  cells.filterMap id

/-- pandas `Series.mean()`: mean of the non-missing values, NaN (`none`)
when there is none. -/
def colMean (cells : List (Option ℚ)) : Option ℚ :=
  if (presentVals cells).length = 0 then none
  else some ((presentVals cells).sum / ((presentVals cells).length : ℚ))

/-- pandas `Series.std()` squared: the sample variance (ddof = 1) of the
non-missing values, NaN (`none`) when fewer than two are present. -/
def colVar (cells : List (Option ℚ)) : Option ℚ :=
  if (presentVals cells).length ≤ 1 then none
  else
    some (((presentVals cells).map (fun x =>
      (x - (presentVals cells).sum / ((presentVals cells).length : ℚ)) ^ 2)).sum /
        (((presentVals cells).length : ℚ) - 1))

/-- Insert into a sorted list of rationals. -/
def insertSorted (x : ℚ) : List ℚ → List ℚ
  | [] => [x]
  | y :: ys => if x ≤ y then x :: y :: ys else y :: insertSorted x ys

/-- Sort a list of rationals (insertion sort). -/
def sortQ (xs : List ℚ) : List ℚ :=
  xs.foldr insertSorted []

/-- pandas `Series.median()`: over the non-missing values, the middle
element of the sorted list when their number is odd, the average of the two
middle elements when even, NaN (`none`) when there is none. -/
def medianQ (cells : List (Option ℚ)) : Option ℚ :=
  let xs := sortQ (presentVals cells)
  let n := xs.length
  if n = 0 then none
  else if n % 2 = 1 then xs.get? (n / 2)
  else
    match xs.get? (n / 2 - 1), xs.get? (n / 2) with
    | some a, some b => some ((a + b) / 2)
    | _, _ => none

/-- The squared z-scores of a column, one per row, translated from
`(data[column] - data[column].mean()) / data[column].std()`
(src/notebooks/utils.py line 600): `none` is NaN.  When σ is NaN (fewer
than two values) every z is NaN; when σ = 0 every present value equals μ so
z = 0/0 is NaN; a missing cell has a NaN z. -/
def zsqList (cells : List (Option ℚ)) : List (Option ℚ) :=
  match colMean cells, colVar cells with
  | some μ, some v =>
      cells.map (fun c =>
        match c with
        | none => none
        | some x => if v = 0 then none else some ((x - μ) ^ 2 / v))
  | _, _ => cells.map (fun _ => none)

/-- `np.abs(z_scores) > threshold` (src/notebooks/utils.py line 603) in the
squared encoding: a NaN z compares false; otherwise |z| > t ⟺ t < 0 ∨
z² > t². -/
def flagList (cells : List (Option ℚ)) (threshold : ℚ) : List Bool :=
  (zsqList cells).map (fun z =>
    match z with
    | none => false
    | some z2 => decide (threshold < 0) || decide (threshold ^ 2 < z2))

/-- `calculate_z_scores` (src/notebooks/utils.py lines 582–605): copy the
table and, for each requested column, assign a `{column}_zscore` column and
a `{column}_flagged` column.  A requested column that is absent or not
numeric raises (KeyError / TypeError), modelled as `Except.error`. -/
def calculate_z_scores (data : Table) (columns : List String) (threshold : ℚ) :
    Except String Table :=
  columns.foldlM (fun acc column =>
    match lookupCol data column with
    | some (Col.numeric cells) =>
        Except.ok
          (setCol (setCol acc (column ++ "_zscore") (Col.numeric (zsqList cells)))
            (column ++ "_flagged") (Col.bools (flagList cells threshold)))
    | _ => Except.error "requested column is absent or not numeric") data

/-- Caller's table after `calculate_z_scores`: the source writes only into
`z_score_results = data.copy()` (line 597), never into `data`. -/
def calculate_z_scores_after (data : Table) (_columns : List String)
    (_threshold : ℚ) : Table :=
  data

/-- Body of the per-column loop of `replace_outliers_with_mean_or_median`
(src/notebooks/utils.py lines 711–728): z-scores and the outlier mask are
computed from the column's own unmodified values, then the method is
dispatched — an unrecognized method raises `ValueError` at this point — and
the masked rows are overwritten with the column's mean or median, both of
the original column. -/
def processOutlierCol (method : String) (threshold : ℚ)
    (cells : List (Option ℚ)) : Except String (List (Option ℚ)) :=
  let outliers := flagList cells threshold
  let replacement : Except String (Option ℚ) :=
    if method = "mean" then Except.ok (colMean cells)
    else if method = "median" then Except.ok (medianQ cells)
    else Except.error "Method must be either median or mean"
  replacement.map (fun r =>
    List.zipWith (fun flagged c => if flagged then r else c) outliers cells)

/-- `replace_outliers_with_mean_or_median` (src/notebooks/utils.py lines
696–730): on a copy of the table, every numeric column is processed by the
loop body above; non-numeric columns are not touched
(`select_dtypes(include=np.number)`).  With no numeric column the loop body
never runs, so no method validation happens. -/
def replace_outliers_with_mean_or_median (df : Table) (method : String)
    (threshold : ℚ) : Except String Table := do
  let cols ← df.cols.mapM (fun p =>
    match p.2 with
    | Col.numeric cells =>
        (processOutlierCol method threshold cells).map
          (fun cs => (p.1, Col.numeric cs))
    | c => Except.ok (p.1, c))
  Except.ok { df with cols := cols }

/-- Caller's table after `replace_outliers_with_mean_or_median`: the source
writes only into `df_cleaned = df.copy()` (line 709). -/
def replace_outliers_with_mean_or_median_after (df : Table) (_method : String)
    (_threshold : ℚ) : Table :=
  df

/-- Whether a column makes `df >= 0` raise a TypeError: comparing a string
with an integer is unsupported, so any object column with at least one
element does. -/
def blocksGeZero : Col → Bool
  | .text cells => !cells.isEmpty
  | _ => false

/-- One column of `df.where(df >= 0, 0)`: a numeric cell is kept when the
condition `x ≥ 0` holds and replaced by 0 otherwise; a NaN cell fails the
condition and becomes 0.  Bool cells compare `True/False ≥ 0`, always true,
and are kept. -/
def whereGeZeroCol : Col → Col
  | .numeric cells =>
      Col.numeric (cells.map (fun c =>
        match c with
        | some x => if 0 ≤ x then some x else some 0
        | none => some 0))
  | .text cells => Col.text cells
  | .bools cells => Col.bools cells

/-- `replace_neg_with_zero` (src/notebooks/utils.py lines 733–746):
`df.where(df >= 0, 0)`.  The comparison `df >= 0` raises a TypeError as
soon as the table has a non-empty object column; otherwise a new table is
returned with every failing cell replaced by 0. -/
def replace_neg_with_zero (df : Table) : Except Unit Table :=
  if df.cols.any (fun p => blocksGeZero p.2) then Except.error ()
  else Except.ok { df with cols := df.cols.map (fun p => (p.1, whereGeZeroCol p.2)) }

/-- Caller's table after `replace_neg_with_zero`: `df.where` builds a new
frame, the argument is only read. -/
def replace_neg_with_zero_after (df : Table) : Table :=
  df

/-- `Series.clip(lower=min_val, upper=max_val)` on one column: each present
value is clamped (the upper bound applied last, as in numpy), NaN stays
NaN; the engine only ever supplies ranges for numeric columns. -/
def clipCol (min_val max_val : ℚ) : Col → Col
  | .numeric cells =>
      Col.numeric (cells.map (fun c =>
        match c with
        | some x => some (min max_val (max min_val x))
        | none => none))
  | c => c

/-- `clip_columns_to_range` (src/notebooks/utils.py lines 677–693): for
each (column, (min, max)) entry whose key names an existing column, the
source assigns `df[column] = df[column].clip(...)` into the argument frame
itself and finally returns that same frame. -/
def clip_columns_to_range (df : Table)
    (column_ranges : List (String × ℚ × ℚ)) : Table :=
  column_ranges.foldl (fun acc r =>
    if acc.cols.any (fun p => p.1 = r.1) then
      setCol acc r.1 (clipCol r.2.1 r.2.2 ((lookupCol acc r.1).getD (Col.numeric [])))
    else acc) df

/-- Caller's table after `clip_columns_to_range`: the source's column
assignments target the argument frame, so the caller's table holds the
clipped result — the one operation of the engine that mutates its input. -/
def clip_columns_to_range_after (df : Table)
    (column_ranges : List (String × ℚ × ℚ)) : Table :=
  clip_columns_to_range df column_ranges

/-- Caller's table after `report_null_columns`: the source only reads. -/
def report_null_columns_after (df : Table) : Table :=
  df

/-- Calendar bucket of a timestamp for `resample(frequency)`: monthly
buckets are (year, some month), yearly buckets (year, none). -/
def periodKey (frequency : String) (ts : Timestamp) : Int × Option Nat :=
  if frequency = "M" then (ts.year, some ts.month) else (ts.year, none)

/-- The distinct elements of a list in order of first occurrence (the
calendar buckets of an ascending index appear chronologically). -/
def dedupFirst {α : Type} [DecidableEq α] : List α → List α
  | [] => []
  | x :: xs => x :: dedupFirst (xs.filter (fun y => y ≠ x))
termination_by l => l.length
decreasing_by
  exact Nat.lt_succ_of_le (List.length_filter_le _ _)

/-- Cells of a column lying in the rows whose timestamp falls in bucket
`k`. -/
def selectByKey (idx : List Timestamp) (frequency : String)
    (k : Int × Option Nat) (cells : List (Option ℚ)) : List (Option ℚ) :=
  (idx.zip cells).filterMap (fun p =>
    if periodKey frequency p.1 = k then some p.2 else none)

/-- `df[["GHI", "DNI", "DHI"]]`: the fixed column subset taken by
`aggregate_solar_data`; a missing or non-numeric member raises. -/
def subsetGDD (df : Table) : Except String (List (String × List (Option ℚ))) :=
  ["GHI", "DNI", "DHI"].mapM (fun n =>
    match lookupCol df n with
    | some (Col.numeric cells) => Except.ok (n, cells)
    | _ => Except.error "KeyError")

/-- `aggregate_solar_data` (src/notebooks/utils.py lines 654–674): the
frequency is validated first — anything but "M" or "Y" raises `ValueError`
before any computation — then the fixed columns GHI, DNI, DHI are resampled
to calendar buckets and averaged (`.resample(frequency).mean()`), one
output row per occurring bucket, each row carrying the per-column mean of
its bucket. -/
def aggregate_solar_data (df : Table) (frequency : String) :
    Except String (List ((Int × Option Nat) × List (String × Option ℚ))) :=
  if frequency ≠ "M" ∧ frequency ≠ "Y" then
    Except.error "Frequency must be M (monthly) or Y (yearly)."
  else do
    let cols ← subsetGDD df
    let keys := dedupFirst (df.index.map (periodKey frequency))
    Except.ok (keys.map (fun k =>
      (k, cols.map (fun c => (c.1, colMean (selectByKey df.index frequency k c.2))))))

/-- Caller's table after `aggregate_solar_data`: `resample().mean()` builds
a new frame, the argument is only read. -/
def aggregate_solar_data_after (df : Table) (_frequency : String) : Table :=
  df

/-- Rows where columns `xs` and `ys` are both present: the
pairwise-complete observations of pandas `corr`. -/
def pairComplete (xs ys : List (Option ℚ)) : List (ℚ × ℚ) :=
  (xs.zip ys).filterMap (fun p =>
    match p with
    | (some a, some b) => some (a, b)
    | _ => none)

/-- Mean of the first coordinates of the complete pairs. -/
def meanFst (ps : List (ℚ × ℚ)) : ℚ :=
  (ps.map (fun p => p.1)).sum / (ps.length : ℚ)

/-- Mean of the second coordinates of the complete pairs. -/
def meanSnd (ps : List (ℚ × ℚ)) : ℚ :=
  (ps.map (fun p => p.2)).sum / (ps.length : ℚ)

/-- Centered cross scatter Sxy of the complete pairs. -/
def sXY (ps : List (ℚ × ℚ)) : ℚ :=
  (ps.map (fun p => (p.1 - meanFst ps) * (p.2 - meanSnd ps))).sum

/-- Centered scatter Sxx of the first coordinates. -/
def sXX (ps : List (ℚ × ℚ)) : ℚ :=
  (ps.map (fun p => (p.1 - meanFst ps) ^ 2)).sum

/-- Centered scatter Syy of the second coordinates. -/
def sYY (ps : List (ℚ × ℚ)) : ℚ :=
  (ps.map (fun p => (p.2 - meanSnd ps) ^ 2)).sum

/-- Pearson coefficient of a list of complete pairs, in the signed-square
encoding of the file header: r·|r| = Sxy·|Sxy|/(Sxx·Syy); when
Sxx·Syy = 0 (a constant or empty column over the complete rows) pandas
produces NaN, here `none`. -/
def corrOfPairs (ps : List (ℚ × ℚ)) : Option ℚ :=
  if sXX ps * sYY ps = 0 then none
  else some (sXY ps * |sXY ps| / (sXX ps * sYY ps))

/-- One entry of `data[columns].corr()`: the Pearson coefficient (in the
signed-square encoding) over the pairwise-complete observations of the two
columns. -/
def corrEntry (xs ys : List (Option ℚ)) : Option ℚ :=
  corrOfPairs (pairComplete xs ys)

/-- The correlation matrix `data[columns].corr()` computed by
`plot_correlation_heatmap` (src/notebooks/utils.py line 394): a square
matrix over the requested columns, entries in the signed-square encoding.
A requested column that is absent or not numeric raises. -/
def corr_matrix (data : Table) (columns : List String) :
    Except String (List (List (Option ℚ))) := do
  let cls ← columns.mapM (fun n =>
    match lookupCol data n with
    | some (Col.numeric cells) => Except.ok cells
    | _ => Except.error "requested column is absent or not numeric")
  Except.ok (cls.map (fun x => cls.map (fun y => corrEntry x y)))

/-- Whether a row (given by position) holds a negative value in any
column: the mask `(df < 0).any(axis=1)` (src/notebooks/utils.py line 765).
The source's domain is a table of numeric columns (its docstring); object
and bool columns contribute no negative value. -/
def rowHasNegative (df : Table) (i : Nat) : Bool :=
  df.cols.any (fun p =>
    match p.2 with
    | Col.numeric cells =>
        match cells.get? i with
        | some (some x) => decide (x < 0)
        | _ => false
    | _ => false)

/-- Keep the elements of `cells` at the positions selected by `keep`. -/
def maskFilter {α : Type} (keep : List Bool) (cells : List α) : List α :=
  ((keep.zip cells).filterMap (fun p => if p.1 then some p.2 else none))

/-- The intermediate per-row report built by lines 765–773 of
src/notebooks/utils.py: the rows holding a negative value, their original
values, an `Hour` column with the timestamp's hour-of-day and a `Nighttime`
column with (hour ≥ nighttime_start) ∨ (hour < nighttime_end). -/
def negative_nighttime_report (df : Table) (nighttime_start nighttime_end : Nat) :
    Table :=
  let keep := (List.range df.index.length).map (fun i => rowHasNegative df i)
  let base : Table :=
    { index := maskFilter keep df.index
      cols := df.cols.map (fun p =>
        (p.1,
          match p.2 with
          | Col.numeric cells => Col.numeric (maskFilter keep cells)
          | Col.text cells => Col.text (maskFilter keep cells)
          | Col.bools cells => Col.bools (maskFilter keep cells))) }
  let withHour := setCol base "Hour"
    (Col.numeric (base.index.map (fun ts => some (ts.hour : ℚ))))
  setCol withHour "Nighttime"
    (Col.bools (base.index.map (fun ts =>
      decide (nighttime_start ≤ ts.hour) || decide (ts.hour < nighttime_end))))

/-- `check_negative_values_nighttime` (src/notebooks/utils.py lines
749–775): the per-row report is built, but line 775 returns
`all(negative_values[["Hour", "Nighttime"] + list(df.columns)])` — the
Python builtin `all` over a DataFrame iterates its column *labels*, and a
string is truthy iff non-empty — so the function discards the report and
returns a single boolean that only depends on the column names. -/
def check_negative_values_nighttime (df : Table)
    (nighttime_start nighttime_end : Nat) : Bool :=
  let _report := negative_nighttime_report df nighttime_start nighttime_end
  (["Hour", "Nighttime"] ++ df.cols.map (fun p => p.1)).all (fun s => s ≠ "")

/-- Caller's table after `check_negative_values_nighttime`: the source
writes only into `df[...].copy()` (line 765). -/
def check_negative_values_nighttime_after (df : Table)
    (_nighttime_start _nighttime_end : Nat) : Table :=
  df

/-- Whether an `Except` value is a raised exception. -/
def isErr {ε α : Type} : Except ε α → Bool
  | .error _ => true
  | .ok _ => false

/-- Whether a column has numeric dtype (is picked up by
`select_dtypes(include=np.number)`). -/
def isNumericCol : Col → Bool
  | .numeric _ => true
  | _ => false

/-- Scenario A of the spec: column A with one missing value, column B
complete. -/
def dfScenarioA : Table :=
  ⟨[], [("A", Col.numeric [some 1, none, some 3]),
        ("B", Col.numeric [some 1, some 2, some 3])]⟩

/-- Scenario B of the spec: a single column [1, 2, 3, 4, 5]. -/
def dfScenarioB : Table :=
  ⟨[], [("V", Col.numeric [some 1, some 2, some 3, some 4, some 5])]⟩

/-- A table whose single column is constant: its sample standard deviation
is zero. -/
def dfConstant : Table :=
  ⟨[], [("V", Col.numeric [some 1, some 1])]⟩

/-- Scenario D of the spec: [-3, 0, 7]. -/
def dfScenarioD : Table :=
  ⟨[], [("GHI", Col.numeric [some (-3), some 0, some 7])]⟩

/-- A table with an object (string) column next to a numeric one. -/
def dfMixed : Table :=
  ⟨[], [("Comments", Col.text ["a"]), ("GHI", Col.numeric [some (-3)])]⟩

/-- A table with only an object (string) column and no numeric column. -/
def dfTextOnly : Table :=
  ⟨[], [("Comments", Col.text ["x"])]⟩

/-- A numeric column with a missing cell and a negative cell. -/
def dfWithMissing : Table :=
  ⟨[], [("GHI", Col.numeric [none, some (-3)])]⟩

/-- Scenario C of the spec: GHI = [-5, 50, 1200]. -/
def dfScenarioC : Table :=
  ⟨[], [("GHI", Col.numeric [some (-5), some 50, some 1200])]⟩

/-- Scenario E of the spec: X = [1,2,3,4], Y = [2,4,6,8]. -/
def dfScenarioE : Table :=
  ⟨[], [("X", Col.numeric [some 1, some 2, some 3, some 4]),
        ("Y", Col.numeric [some 2, some 4, some 6, some 8])]⟩

/-- A table with the three hard-wired irradiance columns plus a fourth
column `Tamb`, three rows across two calendar months. -/
def dfAgg : Table :=
  ⟨[⟨2021, 8, 1, 0⟩, ⟨2021, 8, 2, 0⟩, ⟨2021, 9, 1, 0⟩],
    [("GHI", Col.numeric [some 1, some 3, some 5]),
     ("DNI", Col.numeric [some 0, some 0, some 2]),
     ("DHI", Col.numeric [some 2, some 2, some 2]),
     ("Tamb", Col.numeric [some 9, some 9, some 9])]⟩

/-- One negative reading at 10:00 — daytime under the default window. -/
def dfNegDaytime : Table :=
  ⟨[⟨2021, 8, 5, 10⟩], [("GHI", Col.numeric [some (-1)])]⟩

/-- One negative reading at 22:00 — nighttime under the default window. -/
def dfNegNighttime : Table :=
  ⟨[⟨2021, 8, 5, 22⟩], [("GHI", Col.numeric [some (-1)])]⟩

/-! Helper lemmas. -/

theorem report_null_filterMap_sum (l : List (String × Col)) :
    ((l.filterMap (fun p =>
      if 0 < nullCount p.2 then some (p.1, nullCount p.2) else none)).map
        (fun p => p.2)).sum = (l.map (fun p => nullCount p.2)).sum := by
  induction l with
  | nil => rfl
  | cons hd tl ih =>
    by_cases h : 0 < nullCount hd.2
    · simp [List.filterMap_cons, h, ih]
    · have h0 : nullCount hd.2 = 0 := Nat.eq_zero_of_not_pos h
      simp [List.filterMap_cons, h, ih, h0]

/-! Claim C6 — the null report. -/

/-- C6: `computeNullReport` maps a column to a count exactly when the
column has a missing value (only positive counts appear), the counts sum to
the total number of missing cells, the function is total, and the empty
table yields the empty report. -/
theorem c6_null_report_correct :
    (∀ (df : Table) (p : String × Nat), p ∈ report_null_columns df → 0 < p.2) ∧
    (∀ df : Table,
      ((report_null_columns df).map (fun p => p.2)).sum = totalMissing df) ∧
    report_null_columns ⟨[], []⟩ = [] := by
  refine ⟨?_, ?_, rfl⟩
  · intro df p hp
    rcases List.mem_filterMap.mp hp with ⟨q, _, hq⟩
    by_cases h : 0 < nullCount q.2
    · simp only [h, if_pos] at hq
      cases hq
      exact h
    · simp [h] at hq
  · intro df
    exact report_null_filterMap_sum df.cols

/-- Witness for C6: on Scenario A, the report entry ("A", 1) is present and
its count is positive. -/
theorem c6_null_report_correct_witness :
    ("A", 1) ∈ report_null_columns dfScenarioA ∧ 0 < ("A", 1).2 :=
  ⟨by decide, c6_null_report_correct.1 dfScenarioA ("A", 1) (by decide)⟩

/-! Claim C1 — the nighttime anomaly check. -/

/-- C1: the source builds the per-row (hour, isNighttime, values) report,
but line 775 collapses it: `check_negative_values_nighttime` returns the
single boolean `true` for any table with non-empty column names — the same
value for a daytime negative (hour 10, Nighttime = false) and a nighttime
negative (hour 22, Nighttime = true) — instead of the per-row report its
own docstring promises. -/
theorem c1_nighttime_check_collapsed_to_boolean :
    check_negative_values_nighttime dfNegDaytime 18 6 = true ∧
    check_negative_values_nighttime dfNegNighttime 18 6 = true ∧
    negative_nighttime_report dfNegDaytime 18 6 =
      ⟨[⟨2021, 8, 5, 10⟩],
        [("GHI", Col.numeric [some (-1)]),
         ("Hour", Col.numeric [some 10]),
         ("Nighttime", Col.bools [false])]⟩ ∧
    negative_nighttime_report dfNegNighttime 18 6 =
      ⟨[⟨2021, 8, 5, 22⟩],
        [("GHI", Col.numeric [some (-1)]),
         ("Hour", Col.numeric [some 22]),
         ("Nighttime", Col.bools [true])]⟩ := by
  refine ⟨rfl, rfl, ?_, ?_⟩ <;> with_unfolding_all decide

/-! Claim C2 — which operations mutate the caller's table. -/

/-- Counterexample to C2: `clip_columns_to_range` assigns into its argument
frame, so after the call the caller's Scenario C table holds the clipped
values — the input is not unchanged. -/
theorem c2_clip_mutates_caller_table :
    clip_columns_to_range_after dfScenarioC [("GHI", (0, 1000))] ≠ dfScenarioC := by
  with_unfolding_all decide

/-- C2 as amended: every engine operation except `clip` leaves the
caller's table unchanged (they write only into fresh copies), while
`clip_columns_to_range` leaves the caller's table equal to the clipped
result it returns. -/
theorem c2_mutation_profile :
    (∀ df : Table, report_null_columns_after df = df) ∧
    (∀ (df : Table) (columns : List String) (t : ℚ),
      calculate_z_scores_after df columns t = df) ∧
    (∀ (df : Table) (m : String) (t : ℚ),
      replace_outliers_with_mean_or_median_after df m t = df) ∧
    (∀ df : Table, replace_neg_with_zero_after df = df) ∧
    (∀ (df : Table) (f : String), aggregate_solar_data_after df f = df) ∧
    (∀ (df : Table) (a b : Nat),
      check_negative_values_nighttime_after df a b = df) ∧
    (∀ (df : Table) (r : List (String × ℚ × ℚ)),
      clip_columns_to_range_after df r = clip_columns_to_range df r) :=
  ⟨fun _ => rfl, fun _ _ _ => rfl, fun _ _ _ => rfl, fun _ => rfl,
   fun _ _ => rfl, fun _ _ _ => rfl, fun _ _ => rfl⟩

/-! Claim C4 — method validation in the outlier replacer. -/

theorem isErr_bind_ok {α β : Type} (m : Except String α) (g : α → β) :
    isErr (m >>= fun x => Except.ok (g x)) = isErr m := by
  cases m <;> rfl

theorem isErr_mapM {α β : Type} (f : α → Except String β) :
    ∀ l : List α, isErr (l.mapM f) = l.any (fun x => isErr (f x))
  | [] => rfl
  | x :: xs => by
    rw [List.mapM_cons]
    cases hx : f x with
    | error e =>
      have : (Except.error e >>= fun b =>
          xs.mapM f >>= fun bs => pure (b :: bs) : Except String (List β)) =
          Except.error e := rfl
      rw [this]
      simp [isErr, List.any_cons, hx]
    | ok b =>
      have : (Except.ok b >>= fun b =>
          xs.mapM f >>= fun bs => pure (b :: bs) : Except String (List β)) =
          xs.mapM f >>= fun bs => Except.ok (b :: bs) := rfl
      rw [this, isErr_bind_ok, isErr_mapM f xs]
      simp only [List.any_cons]
      simp [hx, isErr]

theorem isErr_processOutlierCol (m : String) (t : ℚ) (cells : List (Option ℚ)) :
    isErr (processOutlierCol m t cells) =
      (decide (m ≠ "mean") && decide (m ≠ "median")) := by
  unfold processOutlierCol
  by_cases h1 : m = "mean"
  · simp [h1, Except.map, isErr]
  · by_cases h2 : m = "median"
    · simp [h1, h2, Except.map, isErr]
    · simp [h1, h2, Except.map, isErr]

theorem any_const_and {α : Type} (c : Bool) (f : α → Bool) :
    ∀ l : List α, l.any (fun x => c && f x) = (c && l.any f)
  | [] => by simp
  | x :: xs => by
    simp only [List.any_cons, any_const_and c f xs, Bool.and_or_distrib_left]

/-- Counterexample to C4: on a table with no numeric column the
method-dispatch line is never reached, so an invalid method does not fail —
the call returns the table unchanged. -/
theorem c4_invalid_method_can_succeed :
    replace_outliers_with_mean_or_median dfTextOnly "bogus" 3 =
      Except.ok dfTextOnly := by
  with_unfolding_all decide

/-- C4 as amended: `replace_outliers_with_mean_or_median` fails with
`InvalidArgument` iff the method is not one of mean/median AND the table
has at least one numeric column (the check sits inside the per-column
loop); when it fails no output table is produced, and in every case the
caller's table is left unchanged, so there are no partial results. -/
theorem c4_error_iff_bad_method_and_numeric_column :
    (∀ (df : Table) (m : String) (t : ℚ),
      isErr (replace_outliers_with_mean_or_median df m t) =
        ((decide (m ≠ "mean") && decide (m ≠ "median")) &&
          df.cols.any (fun p => isNumericCol p.2))) ∧
    (∀ (df : Table) (m : String) (t : ℚ),
      replace_outliers_with_mean_or_median_after df m t = df) := by
  refine ⟨?_, fun _ _ _ => rfl⟩
  intro df m t
  unfold replace_outliers_with_mean_or_median
  rw [show (do
      let cols ← df.cols.mapM (fun p =>
        match p.2 with
        | Col.numeric cells =>
            (processOutlierCol m t cells).map (fun cs => (p.1, Col.numeric cs))
        | c => Except.ok (p.1, c))
      Except.ok { df with cols := cols } : Except String Table) =
      (df.cols.mapM (fun p =>
        match p.2 with
        | Col.numeric cells =>
            (processOutlierCol m t cells).map (fun cs => (p.1, Col.numeric cs))
        | c => Except.ok (p.1, c)) >>= fun cols =>
          Except.ok { df with cols := cols }) from rfl]
  rw [isErr_bind_ok, isErr_mapM]
  have hcol : ∀ p : String × Col,
      isErr (match p.2 with
        | Col.numeric cells =>
            (processOutlierCol m t cells).map (fun cs => (p.1, Col.numeric cs))
        | c => Except.ok (p.1, c)) =
      ((decide (m ≠ "mean") && decide (m ≠ "median")) && isNumericCol p.2) := by
    intro p
    cases hc : p.2 with
    | numeric cells =>
      have : isErr ((processOutlierCol m t cells).map
          (fun cs => (p.1, Col.numeric cs))) = isErr (processOutlierCol m t cells) := by
        cases processOutlierCol m t cells <;> rfl
      rw [this, isErr_processOutlierCol]
      simp [isNumericCol]
    | text cells => simp [isErr, isNumericCol]
    | bools cells => simp [isErr, isNumericCol]
  calc df.cols.any (fun p =>
        isErr (match p.2 with
          | Col.numeric cells =>
              (processOutlierCol m t cells).map (fun cs => (p.1, Col.numeric cs))
          | c => Except.ok (p.1, c)))
      = df.cols.any (fun p =>
          (decide (m ≠ "mean") && decide (m ≠ "median")) && isNumericCol p.2) := by
        exact congrArg _ (funext hcol)
    _ = ((decide (m ≠ "mean") && decide (m ≠ "median")) &&
          df.cols.any (fun p => isNumericCol p.2)) :=
        any_const_and _ _ df.cols

/-! Claim C5 — zero-variance columns in the z-score computation. -/

theorem zscore_suffix_ne_flagged_suffix (n : String) :
    n ++ "_zscore" ≠ n ++ "_flagged" := by
  intro h
  have hl := congrArg String.length h
  rw [String.length_append, String.length_append] at hl
  have h7 : ("_zscore" : String).length = 7 := by decide
  have h8 : ("_flagged" : String).length = 8 := by decide
  omega

theorem setCol_append (df : Table) (name : String) (c : Col)
    (h : df.cols.any (fun p => p.1 = name) = false) :
    setCol df name c = ⟨df.index, df.cols ++ [(name, c)]⟩ := by
  unfold setCol
  rw [h]
  simp

theorem calculate_z_scores_single (df : Table) (n : String)
    (cells : List (Option ℚ)) (t : ℚ)
    (h : lookupCol df n = some (Col.numeric cells))
    (hfresh : ∀ p ∈ df.cols, p.1 ≠ n ++ "_zscore" ∧ p.1 ≠ n ++ "_flagged") :
    calculate_z_scores df [n] t =
      Except.ok ⟨df.index, df.cols ++
        [(n ++ "_zscore", Col.numeric (zsqList cells)),
         (n ++ "_flagged", Col.bools (flagList cells t))]⟩ := by
  have hz : df.cols.any (fun p => p.1 = n ++ "_zscore") = false := by
    rw [List.any_eq_false]
    intro p hp
    simpa using (hfresh p hp).1
  have hs1 := setCol_append df (n ++ "_zscore") (Col.numeric (zsqList cells)) hz
  have hf2 : (df.cols ++ [(n ++ "_zscore", Col.numeric (zsqList cells))]).any
      (fun p => p.1 = n ++ "_flagged") = false := by
    rw [List.any_append]
    have ha : df.cols.any (fun p => p.1 = n ++ "_flagged") = false := by
      rw [List.any_eq_false]
      intro p hp
      simpa using (hfresh p hp).2
    have hb : ([(n ++ "_zscore", Col.numeric (zsqList cells))] :
        List (String × Col)).any (fun p => p.1 = n ++ "_flagged") = false := by
      simp [zscore_suffix_ne_flagged_suffix n]
    rw [ha, hb]
    rfl
  unfold calculate_z_scores
  simp only [List.foldlM_cons, List.foldlM_nil, bind_pure]
  simp only [h]
  rw [hs1, setCol_append _ _ _ hf2]
  simp [List.append_assoc]

theorem colMean_of_var_some (cells : List (Option ℚ)) (v : ℚ)
    (hv : colVar cells = some v) :
    colMean cells =
      some ((presentVals cells).sum / ((presentVals cells).length : ℚ)) := by
  unfold colVar at hv
  unfold colMean
  by_cases hl : (presentVals cells).length ≤ 1
  · rw [if_pos hl] at hv
    exact absurd hv (by simp)
  · have h0 : ¬ (presentVals cells).length = 0 := by omega
    rw [if_neg h0]

theorem zsqList_var_zero (cells : List (Option ℚ))
    (hv : colVar cells = some 0) :
    zsqList cells = cells.map (fun _ => none) := by
  unfold zsqList
  rw [colMean_of_var_some cells 0 hv, hv]
  apply List.map_congr_left
  intro c _
  cases c <;> simp

theorem flagList_var_zero (cells : List (Option ℚ)) (t : ℚ)
    (hv : colVar cells = some 0) :
    flagList cells t = cells.map (fun _ => false) := by
  unfold flagList
  rw [zsqList_var_zero cells hv, List.map_map]
  rfl

/-- C5: if a requested column has sample standard deviation zero (its
sample variance is zero), `calculate_z_scores` does not raise: the
appended z-score column is NaN (`none`) in every row and the appended flag
column is false in every row, for any threshold. -/
theorem c5_zero_std_nan_and_unflagged :
    ∀ (df : Table) (n : String) (cells : List (Option ℚ)) (t : ℚ),
      lookupCol df n = some (Col.numeric cells) →
      colVar cells = some 0 →
      (∀ p ∈ df.cols, p.1 ≠ n ++ "_zscore" ∧ p.1 ≠ n ++ "_flagged") →
      calculate_z_scores df [n] t =
        Except.ok ⟨df.index, df.cols ++
          [(n ++ "_zscore", Col.numeric (cells.map (fun _ => none))),
           (n ++ "_flagged", Col.bools (cells.map (fun _ => false)))]⟩ := by
  intro df n cells t h hv hfresh
  rw [calculate_z_scores_single df n cells t h hfresh,
    zsqList_var_zero cells hv, flagList_var_zero cells t hv]

/-- Witness for C5: the constant column [1, 1] has sample variance 0, and
`calculate_z_scores` succeeds with an all-NaN z-score column and an
all-false flag column. -/
theorem c5_zero_std_nan_and_unflagged_witness :
    colVar [some 1, some 1] = some 0 ∧
    calculate_z_scores dfConstant ["V"] 3 =
      Except.ok ⟨[], [("V", Col.numeric [some 1, some 1]),
        ("V" ++ "_zscore", Col.numeric [none, none]),
        ("V" ++ "_flagged", Col.bools [false, false])]⟩ := by
  constructor
  · with_unfolding_all decide
  · rw [c5_zero_std_nan_and_unflagged dfConstant "V" [some 1, some 1] 3
      (by with_unfolding_all decide) (by with_unfolding_all decide) (by decide)]
    with_unfolding_all decide

/-! Claim C3 — the overwritten rows are exactly the flagged rows. -/

theorem processOutlierCol_valid (m : String) (t : ℚ) (cells : List (Option ℚ))
    (hm : m = "mean" ∨ m = "median") :
    processOutlierCol m t cells = Except.ok (List.zipWith
      (fun flagged c => if flagged
        then (if m = "mean" then colMean cells else medianQ cells) else c)
      (flagList cells t) cells) := by
  rcases hm with hm | hm <;> subst hm <;> unfold processOutlierCol <;>
    simp [Except.map]

theorem mapM_eq_ok_map {α β : Type} (f : α → Except String β) (g : α → β) :
    ∀ l : List α, (∀ x ∈ l, f x = Except.ok (g x)) →
      l.mapM f = Except.ok (l.map g)
  | [], _ => rfl
  | x :: xs, h => by
    rw [List.mapM_cons, h x (by simp),
      mapM_eq_ok_map f g xs (fun y hy => h y (by simp [hy]))]
    rfl

theorem find?_name_map (l : List (String × Col)) (G : String × Col → Col)
    (n : String) :
    (l.map (fun p => (p.1, G p))).find? (fun p => p.1 = n) =
      (l.find? (fun p => p.1 = n)).map (fun p => (p.1, G p)) := by
  rw [List.find?_map]
  rfl

theorem lookupCol_map (df : Table) (idx2 : List Timestamp)
    (G : String × Col → Col) (n : String) (c : Col)
    (h : lookupCol df n = some c) :
    ∃ p : String × Col, List.find? (fun p => p.1 = n) df.cols = some p ∧
      p.2 = c ∧
      lookupCol ⟨idx2, df.cols.map (fun p => (p.1, G p))⟩ n = some (G p) := by
  unfold lookupCol at h ⊢
  rcases Option.map_eq_some'.mp h with ⟨p, hp, hpc⟩
  refine ⟨p, hp, hpc, ?_⟩
  rw [find?_name_map, hp]
  rfl

/-- C3: for a valid method, `replace_outliers_with_mean_or_median`
succeeds and rewrites each numeric column so that exactly the rows flagged
by `flagList` (the |z| > t test over the column's own unmodified values)
receive the column's original mean or median, all other rows being kept;
and `calculate_z_scores` flags exactly `flagList` on the same column — so
the overwritten row set equals the flagged row set. -/
theorem c3_overwritten_equals_flagged :
    (∀ (df : Table) (m : String) (t : ℚ), m = "mean" ∨ m = "median" →
      ∃ out : Table,
        replace_outliers_with_mean_or_median df m t = Except.ok out ∧
        out.index = df.index ∧
        ∀ (n : String) (cells : List (Option ℚ)),
          lookupCol df n = some (Col.numeric cells) →
          lookupCol out n = some (Col.numeric (List.zipWith
            (fun flagged c => if flagged
              then (if m = "mean" then colMean cells else medianQ cells)
              else c)
            (flagList cells t) cells))) ∧
    (∀ (df : Table) (n : String) (cells : List (Option ℚ)) (t : ℚ),
      lookupCol df n = some (Col.numeric cells) →
      (∀ p ∈ df.cols, p.1 ≠ n ++ "_zscore" ∧ p.1 ≠ n ++ "_flagged") →
      calculate_z_scores df [n] t =
        Except.ok ⟨df.index, df.cols ++
          [(n ++ "_zscore", Col.numeric (zsqList cells)),
           (n ++ "_flagged", Col.bools (flagList cells t))]⟩) := by
  constructor
  · intro df m t hm
    set G : String × Col → Col := fun p =>
      match p.2 with
      | Col.numeric cells => Col.numeric (List.zipWith
          (fun flagged c => if flagged
            then (if m = "mean" then colMean cells else medianQ cells)
            else c)
          (flagList cells t) cells)
      | c => c with hG
    refine ⟨⟨df.index, df.cols.map (fun p => (p.1, G p))⟩, ?_, rfl, ?_⟩
    · unfold replace_outliers_with_mean_or_median
      rw [mapM_eq_ok_map _ (fun p => (p.1, G p)) df.cols ?_]
      · rfl
      · intro p _
        cases hp2 : p.2 with
        | numeric cells =>
          simp only [hp2, processOutlierCol_valid m t cells hm, Except.map,
            hG]
        | text cells => simp [hp2, hG]
        | bools cells => simp [hp2, hG]
    · intro n cells h
      obtain ⟨p, hfind, hp2, hlook⟩ :=
        lookupCol_map df df.index G n (Col.numeric cells) h
      rw [hlook, hG]
      simp only [hp2]
  · exact fun df n cells t h hfresh =>
      calculate_z_scores_single df n cells t h hfresh

/-- Witness for C3: the first component applied to Scenario B with the
median method and threshold 1. -/
theorem c3_overwritten_equals_flagged_witness :
    ∃ out : Table,
      replace_outliers_with_mean_or_median dfScenarioB "median" 1 =
        Except.ok out ∧
      out.index = dfScenarioB.index ∧
      ∀ (n : String) (cells : List (Option ℚ)),
        lookupCol dfScenarioB n = some (Col.numeric cells) →
        lookupCol out n = some (Col.numeric (List.zipWith
          (fun flagged c => if flagged
            then (if "median" = "mean" then colMean cells else medianQ cells)
            else c)
          (flagList cells 1) cells)) :=
  c3_overwritten_equals_flagged.1 dfScenarioB "median" 1 (Or.inr rfl)

/-! Claims C7 and C10 — zeroing negatives. -/

theorem replace_neg_ok (df : Table)
    (h : df.cols.any (fun p => blocksGeZero p.2) = false) :
    replace_neg_with_zero df =
      Except.ok ⟨df.index, df.cols.map (fun p => (p.1, whereGeZeroCol p.2))⟩ := by
  unfold replace_neg_with_zero
  simp [h]

/-- Counterexample to C7: a table holding a non-empty object (string)
column is not passed through — `df >= 0` raises a TypeError, so the whole
call fails instead of returning any table. -/
theorem c7_text_column_not_passed_through :
    replace_neg_with_zero dfMixed = Except.error () := by
  with_unfolding_all decide

/-- C7 as amended: on a table with no non-empty object column,
`replace_neg_with_zero` succeeds; in every numeric column each cell < 0
becomes 0, each cell ≥ 0 is unchanged, and every output cell is a present
value ≥ 0 (missing cells also become 0); a table with a non-empty object
column instead makes the operation raise. -/
theorem c7_zero_negatives_on_numeric_tables :
    ∀ df : Table, df.cols.any (fun p => blocksGeZero p.2) = false →
      ∃ out : Table,
        replace_neg_with_zero df = Except.ok out ∧
        out.index = df.index ∧
        ∀ (n : String) (cells : List (Option ℚ)),
          lookupCol df n = some (Col.numeric cells) →
          ∃ cells2 : List (Option ℚ),
            lookupCol out n = some (Col.numeric cells2) ∧
            cells2.length = cells.length ∧
            (∀ (i : Nat) (x : ℚ), cells[i]? = some (some x) → 0 ≤ x →
              cells2[i]? = some (some x)) ∧
            (∀ (i : Nat) (x : ℚ), cells[i]? = some (some x) → x < 0 →
              cells2[i]? = some (some 0)) ∧
            (∀ (i : Nat) (c : Option ℚ), cells2[i]? = some c →
              ∃ q : ℚ, c = some q ∧ 0 ≤ q) := by
  intro df h
  refine ⟨⟨df.index, df.cols.map (fun p => (p.1, whereGeZeroCol p.2))⟩,
    replace_neg_ok df h, rfl, ?_⟩
  intro n cells hl
  obtain ⟨p, hfind, hp2, hlook⟩ :=
    lookupCol_map df df.index (fun p => whereGeZeroCol p.2) n
      (Col.numeric cells) hl
  refine ⟨cells.map (fun c =>
    match c with
    | some x => if 0 ≤ x then some x else some 0
    | none => some 0), ?_, by simp, ?_, ?_, ?_⟩
  · rw [hlook, hp2]
    rfl
  · intro i x h1 hx
    rw [List.getElem?_map, h1]
    simp [hx]
  · intro i x h1 hx
    rw [List.getElem?_map, h1]
    simp [not_le.mpr hx]
  · intro i c h2
    rw [List.getElem?_map] at h2
    rcases Option.map_eq_some'.mp h2 with ⟨c0, _, hc0⟩
    cases c0 with
    | none => exact ⟨0, hc0.symm, le_refl 0⟩
    | some x =>
      have hc1 : (if 0 ≤ x then some x else some 0) = c := hc0
      by_cases hx : 0 ≤ x
      · rw [if_pos hx] at hc1
        exact ⟨x, hc1.symm, hx⟩
      · rw [if_neg hx] at hc1
        exact ⟨0, hc1.symm, le_refl 0⟩

/-- Witness for C7: applied to Scenario D. -/
theorem c7_zero_negatives_on_numeric_tables_witness :
    dfScenarioD.cols.any (fun p => blocksGeZero p.2) = false ∧
    (∃ out : Table,
      replace_neg_with_zero dfScenarioD = Except.ok out ∧
      out.index = dfScenarioD.index ∧
      ∀ (n : String) (cells : List (Option ℚ)),
        lookupCol dfScenarioD n = some (Col.numeric cells) →
        ∃ cells2 : List (Option ℚ),
          lookupCol out n = some (Col.numeric cells2) ∧
          cells2.length = cells.length ∧
          (∀ (i : Nat) (x : ℚ), cells[i]? = some (some x) → 0 ≤ x →
            cells2[i]? = some (some x)) ∧
          (∀ (i : Nat) (x : ℚ), cells[i]? = some (some x) → x < 0 →
            cells2[i]? = some (some 0)) ∧
          (∀ (i : Nat) (c : Option ℚ), cells2[i]? = some c →
            ∃ q : ℚ, c = some q ∧ 0 ≤ q)) :=
  ⟨by decide, c7_zero_negatives_on_numeric_tables dfScenarioD (by decide)⟩

/-- C10: whenever `replace_neg_with_zero` returns a table, every missing
(NaN) cell of a numeric input column has become 0 in the output — the
kept-if condition `x ≥ 0` of `df.where(df >= 0, 0)` is false for NaN, so
missing values are not preserved. -/
theorem c10_missing_cells_become_zero :
    ∀ (df out : Table), replace_neg_with_zero df = Except.ok out →
      ∀ (n : String) (cells : List (Option ℚ)),
        lookupCol df n = some (Col.numeric cells) →
        ∃ cells2 : List (Option ℚ),
          lookupCol out n = some (Col.numeric cells2) ∧
          ∀ i : Nat, cells[i]? = some none → cells2[i]? = some (some 0) := by
  intro df out h n cells hl
  unfold replace_neg_with_zero at h
  by_cases hb : df.cols.any (fun p => blocksGeZero p.2) = true
  · rw [if_pos hb] at h
    exact absurd h (by simp)
  · rw [if_neg hb] at h
    have hout : out =
        ⟨df.index, df.cols.map (fun p => (p.1, whereGeZeroCol p.2))⟩ :=
      (Except.ok.inj h).symm
    subst hout
    obtain ⟨p, hfind, hp2, hlook⟩ :=
      lookupCol_map df df.index (fun p => whereGeZeroCol p.2) n
        (Col.numeric cells) hl
    refine ⟨cells.map (fun c =>
      match c with
      | some x => if 0 ≤ x then some x else some 0
      | none => some 0), ?_, ?_⟩
    · rw [hlook, hp2]
      rfl
    · intro i h1
      rw [List.getElem?_map, h1]
      rfl

/-- Witness for C10: the column [NaN, -3] comes back as [0, 0]; the
missing first cell became 0. -/
theorem c10_missing_cells_become_zero_witness :
    replace_neg_with_zero dfWithMissing =
      Except.ok ⟨[], [("GHI", Col.numeric [some 0, some 0])]⟩ ∧
    (∃ cells2 : List (Option ℚ),
      lookupCol ⟨[], [("GHI", Col.numeric [some 0, some 0])]⟩ "GHI" =
        some (Col.numeric cells2) ∧
      ∀ i : Nat, ([none, some (-3)] : List (Option ℚ))[i]? = some none →
        cells2[i]? = some (some 0)) :=
  ⟨by with_unfolding_all decide,
    c10_missing_cells_become_zero dfWithMissing
      ⟨[], [("GHI", Col.numeric [some 0, some 0])]⟩
      (by with_unfolding_all decide) "GHI" [none, some (-3)] (by decide)⟩

/-! Claim C9 — calendar aggregation. -/

theorem except_bind_ok {α β : Type} (a : α) (f : α → Except String β) :
    (Except.ok a >>= f) = f a := rfl

theorem except_bind_error {α β : Type} (e : String)
    (f : α → Except String β) :
    ((Except.error e : Except String α) >>= f) = Except.error e := rfl

theorem mapM_lookup_ok (df : Table) :
    ∀ (ns : List String) (cols : List (String × List (Option ℚ))),
      ns.mapM (fun n =>
        match lookupCol df n with
        | some (Col.numeric cells) => Except.ok (n, cells)
        | _ => Except.error "KeyError") = Except.ok cols →
      cols.map (fun c => c.1) = ns ∧
      ∀ (nm : String) (cells : List (Option ℚ)), (nm, cells) ∈ cols →
        lookupCol df nm = some (Col.numeric cells)
  | [], cols, h => by
    rw [List.mapM_nil] at h
    have hc : ([] : List (String × List (Option ℚ))) = cols := Except.ok.inj h
    subst hc
    exact ⟨rfl, by simp⟩
  | n :: ns, cols, h => by
    rw [List.mapM_cons] at h
    cases hn : lookupCol df n with
    | none =>
      rw [hn] at h
      rw [except_bind_error] at h
      exact absurd h (by simp)
    | some c =>
      rw [hn] at h
      cases c with
      | numeric cells =>
        rw [except_bind_ok] at h
        cases hm : ns.mapM (fun n =>
            match lookupCol df n with
            | some (Col.numeric cells) => Except.ok (n, cells)
            | _ => Except.error "KeyError") with
        | error e =>
          rw [hm, except_bind_error] at h
          exact absurd h (by simp)
        | ok bs =>
          rw [hm, except_bind_ok] at h
          have hc : (n, cells) :: bs = cols := Except.ok.inj h
          subst hc
          obtain ⟨ih1, ih2⟩ := mapM_lookup_ok df ns bs hm
          refine ⟨by simp [ih1], ?_⟩
          intro nm cells2 hmem
          rcases List.mem_cons.mp hmem with heq | hmem2
          · have h1 : nm = n := congrArg Prod.fst heq
            have h2 : cells2 = cells := congrArg Prod.snd heq
            rw [h1, h2]
            exact hn
          · exact ih2 nm cells2 hmem2
      | text cells =>
        rw [except_bind_error] at h
        exact absurd h (by simp)
      | bools cells =>
        rw [except_bind_error] at h
        exact absurd h (by simp)

/-- Counterexample to C9: `aggregate_solar_data` has no column-selection
parameter — on a table that also holds a `Tamb` column, the output rows
carry exactly the fixed columns GHI, DNI, DHI, so the selection ["Tamb"]
is not the set of resampled columns. -/
theorem c9_fixed_columns_ignore_selection :
    aggregate_solar_data dfAgg "M" =
      Except.ok
        [((2021, some 8), [("GHI", some 2), ("DNI", some 0), ("DHI", some 2)]),
         ((2021, some 9), [("GHI", some 5), ("DNI", some 2), ("DHI", some 2)])] ∧
    "Tamb" ∈ dfAgg.cols.map (fun p => p.1) ∧
    (∀ row ∈ ([((2021, some 8),
        [("GHI", (some 2 : Option ℚ)), ("DNI", some 0), ("DHI", some 2)]),
       ((2021, some 9), [("GHI", some 5), ("DNI", some 2), ("DHI", some 2)])] :
         List ((Int × Option Nat) × List (String × Option ℚ))),
      row.2.map (fun c => c.1) ≠ ["Tamb"]) := by
  refine ⟨?_, by decide, by decide⟩
  with_unfolding_all decide

/-- C9 as amended: any frequency other than "M" or "Y" fails with the
`InvalidArgument` error before any output is produced; a successful call
has a valid frequency and every output row carries exactly the fixed
columns GHI, DNI, DHI, each holding the mean of that column over the rows
of the row's calendar bucket. -/
theorem c9_frequency_validated_fixed_columns_mean :
    (∀ (df : Table) (f : String), f ≠ "M" → f ≠ "Y" →
      aggregate_solar_data df f =
        Except.error "Frequency must be M (monthly) or Y (yearly).") ∧
    (∀ (df : Table) (f : String)
        (rows : List ((Int × Option Nat) × List (String × Option ℚ))),
      aggregate_solar_data df f = Except.ok rows →
      (f = "M" ∨ f = "Y") ∧
      ∀ row ∈ rows,
        row.2.map (fun c => c.1) = ["GHI", "DNI", "DHI"] ∧
        ∀ (nm : String) (m : Option ℚ), (nm, m) ∈ row.2 →
          ∃ cells : List (Option ℚ),
            lookupCol df nm = some (Col.numeric cells) ∧
            m = colMean (selectByKey df.index f row.1 cells)) := by
  constructor
  · intro df f h1 h2
    unfold aggregate_solar_data
    rw [if_pos ⟨h1, h2⟩]
  · intro df f rows h
    unfold aggregate_solar_data at h
    have hc : ¬ (f ≠ "M" ∧ f ≠ "Y") := by
      intro hc
      rw [if_pos hc] at h
      exact absurd h (by simp)
    rw [if_neg hc] at h
    refine ⟨by tauto, ?_⟩
    intro row hrow
    cases hs : subsetGDD df with
    | error e =>
      rw [hs, except_bind_error] at h
      exact absurd h (by simp)
    | ok cols =>
      rw [hs, except_bind_ok] at h
      have hrows := Except.ok.inj h
      obtain ⟨hnames, hlook⟩ := mapM_lookup_ok df ["GHI", "DNI", "DHI"] cols hs
      rw [← hrows] at hrow
      rcases List.mem_map.mp hrow with ⟨k, hk, hkeq⟩
      constructor
      · have hmm : row.2.map (fun c => c.1) = cols.map (fun c => c.1) := by
          rw [← hkeq]
          rw [List.map_map]
          rfl
        rw [hmm, hnames]
      · intro nm m hmem
        rw [← hkeq] at hmem
        rcases List.mem_map.mp hmem with ⟨c, hcmem, hceq⟩
        have hnm : c.1 = nm := congrArg Prod.fst hceq
        have hm : colMean (selectByKey df.index f k c.2) = m :=
          congrArg Prod.snd hceq
        refine ⟨c.2, ?_, ?_⟩
        · rw [← hnm]
          exact hlook c.1 c.2 hcmem
        · rw [← hm, ← hkeq]

/-- Witness for C9: the unsupported weekly frequency "W" is rejected with
the exact `ValueError` message. -/
theorem c9_frequency_validated_fixed_columns_mean_witness :
    aggregate_solar_data dfAgg "W" =
      Except.error "Frequency must be M (monthly) or Y (yearly)." :=
  c9_frequency_validated_fixed_columns_mean.1 dfAgg "W" (by decide) (by decide)

/-! Claim C8 — the correlation matrix. -/

theorem meanFst_swap (ps : List (ℚ × ℚ)) :
    meanFst (ps.map Prod.swap) = meanSnd ps := by
  unfold meanFst meanSnd
  rw [List.map_map, List.length_map]
  rfl

theorem meanSnd_swap (ps : List (ℚ × ℚ)) :
    meanSnd (ps.map Prod.swap) = meanFst ps := by
  unfold meanFst meanSnd
  rw [List.map_map, List.length_map]
  rfl

theorem sXX_swap (ps : List (ℚ × ℚ)) : sXX (ps.map Prod.swap) = sYY ps := by
  unfold sXX sYY
  rw [meanFst_swap, List.map_map]
  rfl

theorem sYY_swap (ps : List (ℚ × ℚ)) : sYY (ps.map Prod.swap) = sXX ps := by
  unfold sXX sYY
  rw [meanSnd_swap, List.map_map]
  rfl

theorem sXY_swap (ps : List (ℚ × ℚ)) : sXY (ps.map Prod.swap) = sXY ps := by
  unfold sXY
  rw [meanFst_swap, meanSnd_swap, List.map_map]
  refine congrArg List.sum (List.map_congr_left (fun p _ => ?_))
  show (p.2 - meanSnd ps) * (p.1 - meanFst ps) =
    (p.1 - meanFst ps) * (p.2 - meanSnd ps)
  exact mul_comm _ _

theorem corrOfPairs_swap (ps : List (ℚ × ℚ)) :
    corrOfPairs (ps.map Prod.swap) = corrOfPairs ps := by
  unfold corrOfPairs
  rw [sXX_swap, sYY_swap, sXY_swap, mul_comm (sYY ps) (sXX ps)]

theorem pairComplete_swap (xs ys : List (Option ℚ)) :
    pairComplete ys xs = (pairComplete xs ys).map Prod.swap := by
  unfold pairComplete
  rw [← List.zip_swap xs ys, List.filterMap_map, List.map_filterMap]
  refine congrArg (fun f => List.filterMap f (xs.zip ys)) (funext fun p => ?_)
  rcases p with ⟨a, b⟩
  cases a <;> cases b <;> rfl

theorem corrEntry_symm (xs ys : List (Option ℚ)) :
    corrEntry xs ys = corrEntry ys xs := by
  unfold corrEntry
  rw [pairComplete_swap xs ys, corrOfPairs_swap]

theorem zip_self_mem {α : Type} (xs : List α) :
    ∀ q ∈ xs.zip xs, q.1 = q.2 := by
  induction xs with
  | nil => simp
  | cons x xs ih =>
    intro q hq
    rw [List.zip_cons_cons] at hq
    rcases List.mem_cons.mp hq with h | h
    · rw [h]
    · exact ih q h

theorem pairComplete_self (xs : List (Option ℚ)) :
    ∀ p ∈ pairComplete xs xs, p.1 = p.2 := by
  intro p hp
  rcases List.mem_filterMap.mp hp with ⟨q, hq, hgq⟩
  have hq12 : q.1 = q.2 := zip_self_mem xs q hq
  rcases q with ⟨a, b⟩
  cases a with
  | none => exact absurd hgq (by simp)
  | some x =>
    cases b with
    | none => exact absurd hgq (by simp)
    | some y =>
      have hxy : x = y := by simpa using hq12
      have hp2 : (x, y) = p := Option.some.inj hgq
      rw [← hp2]
      exact hxy

theorem sXX_nonneg (ps : List (ℚ × ℚ)) : 0 ≤ sXX ps := by
  refine List.sum_nonneg ?_
  intro x hx
  rcases List.mem_map.mp hx with ⟨p, _, hpx⟩
  rw [← hpx]
  exact sq_nonneg _

theorem corrOfPairs_self (ps : List (ℚ × ℚ)) (hps : ∀ p ∈ ps, p.1 = p.2) :
    corrOfPairs ps = none ∨ corrOfPairs ps = some 1 := by
  have hm : meanSnd ps = meanFst ps := by
    unfold meanFst meanSnd
    rw [show ps.map (fun p => p.2) = ps.map (fun p => p.1) from
      List.map_congr_left (fun p hp => (hps p hp).symm)]
  have hxy : sXY ps = sXX ps := by
    unfold sXY sXX
    rw [hm]
    refine congrArg List.sum (List.map_congr_left (fun p hp => ?_))
    rw [← hps p hp]
    ring
  have hyy : sYY ps = sXX ps := by
    unfold sYY sXX
    rw [hm]
    refine congrArg List.sum (List.map_congr_left (fun p hp => ?_))
    rw [← hps p hp]
  unfold corrOfPairs
  rw [hxy, hyy]
  by_cases h0 : sXX ps * sXX ps = 0
  · left
    rw [if_pos h0]
  · right
    rw [if_neg h0]
    have hxx0 : sXX ps ≠ 0 := fun hx => h0 (by rw [hx]; ring)
    have hxxpos : 0 < sXX ps := lt_of_le_of_ne (sXX_nonneg ps) (Ne.symm hxx0)
    rw [abs_of_pos hxxpos, div_self h0]

theorem corrEntry_self (xs : List (Option ℚ)) :
    corrEntry xs xs = none ∨ corrEntry xs xs = some 1 :=
  corrOfPairs_self _ (pairComplete_self xs)

theorem exceptMapM_ok_length {α β : Type} (f : α → Except String β) :
    ∀ (l : List α) (bs : List β), l.mapM f = Except.ok bs →
      bs.length = l.length
  | [], bs, h => by
    rw [List.mapM_nil] at h
    rw [← Except.ok.inj h]
    rfl
  | x :: xs, bs, h => by
    rw [List.mapM_cons] at h
    cases hx : f x with
    | error e =>
      rw [hx, except_bind_error] at h
      exact absurd h (by simp)
    | ok b =>
      rw [hx, except_bind_ok] at h
      cases hm : xs.mapM f with
      | error e =>
        rw [hm, except_bind_error] at h
        exact absurd h (by simp)
      | ok bs2 =>
        rw [hm, except_bind_ok] at h
        rw [← Except.ok.inj h]
        simp [exceptMapM_ok_length f xs bs2 hm]

theorem corr_matrix_ok (data : Table) (columns : List String)
    (M : List (List (Option ℚ))) (h : corr_matrix data columns = Except.ok M) :
    ∃ cls : List (List (Option ℚ)),
      M = cls.map (fun x => cls.map (fun y => corrEntry x y)) ∧
      cls.length = columns.length := by
  unfold corr_matrix at h
  cases hm : columns.mapM (fun n =>
      match lookupCol data n with
      | some (Col.numeric cells) => Except.ok cells
      | _ => Except.error "requested column is absent or not numeric") with
  | error e =>
    rw [hm, except_bind_error] at h
    exact absurd h (by simp)
  | ok cls =>
    rw [hm, except_bind_ok] at h
    exact ⟨cls, (Except.ok.inj h).symm, exceptMapM_ok_length _ columns cls hm⟩

/-- Counterexample to C8: on a constant column the diagonal entry of
`data[columns].corr()` is NaN (`none`), not 1.0 — Sxx·Syy = 0 makes the
divisor vanish. -/
theorem c8_constant_column_diagonal_nan :
    corr_matrix dfConstant ["V"] = Except.ok [[none]] ∧
    corr_matrix dfConstant ["V"] ≠ Except.ok [[some 1]] := by
  constructor <;> with_unfolding_all decide

/-- C8 as amended: a successful correlation matrix is square over the
requested columns, symmetric, its diagonal entries are 1.0 except that a
zero-scatter (constant or under-populated) column yields NaN, and
Scenario E gives the all-ones matrix. -/
theorem c8_correlation_matrix_properties :
    (∀ (data : Table) (columns : List String) (M : List (List (Option ℚ))),
      corr_matrix data columns = Except.ok M →
      M.length = columns.length ∧ ∀ row ∈ M, row.length = columns.length) ∧
    (∀ (data : Table) (columns : List String) (M : List (List (Option ℚ)))
        (i j : Nat),
      corr_matrix data columns = Except.ok M →
      (M[i]?.bind (fun r => r[j]?)) = (M[j]?.bind (fun r => r[i]?))) ∧
    (∀ (data : Table) (columns : List String) (M : List (List (Option ℚ)))
        (i : Nat),
      corr_matrix data columns = Except.ok M →
      (M[i]?.bind (fun r => r[i]?)) = none ∨
      (M[i]?.bind (fun r => r[i]?)) = some none ∨
      (M[i]?.bind (fun r => r[i]?)) = some (some 1)) ∧
    corr_matrix dfScenarioE ["X", "Y"] =
      Except.ok [[some 1, some 1], [some 1, some 1]] := by
  refine ⟨?_, ?_, ?_, by with_unfolding_all decide⟩
  · intro data columns M h
    obtain ⟨cls, hM, hlen⟩ := corr_matrix_ok data columns M h
    subst hM
    refine ⟨by simp [hlen], ?_⟩
    intro row hrow
    rcases List.mem_map.mp hrow with ⟨x, _, hx⟩
    rw [← hx]
    simp [hlen]
  · intro data columns M i j h
    obtain ⟨cls, hM, _⟩ := corr_matrix_ok data columns M h
    subst hM
    cases hi : cls[i]? with
    | none =>
      cases hj : cls[j]? with
      | none => simp [List.getElem?_map, hi, hj]
      | some xj => simp [List.getElem?_map, hi, hj]
    | some xi =>
      cases hj : cls[j]? with
      | none => simp [List.getElem?_map, hi, hj]
      | some xj => simp [List.getElem?_map, hi, hj, corrEntry_symm xi xj]
  · intro data columns M i h
    obtain ⟨cls, hM, _⟩ := corr_matrix_ok data columns M h
    subst hM
    cases hi : cls[i]? with
    | none =>
      left
      simp [List.getElem?_map, hi]
    | some xi =>
      rcases corrEntry_self xi with hd | hd
      · right; left
        simp [List.getElem?_map, hi, hd]
      · right; right
        simp [List.getElem?_map, hi, hd]

/-- Witness for C8: the squareness component applied to Scenario E. -/
theorem c8_correlation_matrix_properties_witness :
    ([[some 1, some 1], [some 1, some 1]] :
      List (List (Option ℚ))).length = (["X", "Y"] : List String).length ∧
    ∀ row ∈ ([[some 1, some 1], [some 1, some 1]] :
      List (List (Option ℚ))), row.length = (["X", "Y"] : List String).length :=
  c8_correlation_matrix_properties.1 dfScenarioE ["X", "Y"]
    [[some 1, some 1], [some 1, some 1]] (by with_unfolding_all decide)

end SolarFarm
